import Mathlib

/-!
Shallow embedding of the Vox2Words transcription pipeline.

Source files embedded here:
- `src/App.tsx`: the pipeline state machine (`handleReset`, `handleFileChange`,
  `handleSubmit`) over the React state variables
  `file, audioSrc, status, statusMessage, lyrics, error, progress`.
- `src/services/geminiService.ts` (provided unnamed): `transcribeLyrics`,
  which trims the remote model response and classifies failures.

Each React `setX(v)` call is modelled as an event; a handler is the fold of
its event trace over the current state, so ordering claims and final-state
claims are settled against one single definition of each handler.  The
external world (the `FileReader` result and the remote model response) is
passed in explicitly as a `RunEnv`.
-/

deriving instance DecidableEq for Except

namespace Vox2Words

/-- `ProcessingStatus` from `src/types` as used by `App.tsx`:
IDLE, PROCESSING, SUCCESS, ERROR. -/
inductive Status where
  | idle
  | processing
  | success
  | error
deriving DecidableEq, Repr

/-- A selected file: the byte size (checked against the 50MB ceiling in
`handleFileChange`) and an identity used as its object URL. -/
structure FileT where
  size : Nat
  id : Nat
deriving DecidableEq, Repr

/-- The React state of the `App` component: the seven `useState` variables. -/
structure St where
  file : Option FileT
  audioSrc : Option Nat
  status : Status
  statusMessage : String
  lyrics : String
  error : Option String
  progress : Nat
deriving DecidableEq, Repr

/-- Initial state of the component (the `useState` initial values). -/
def initState : St :=
  { file := none
    audioSrc := none
    status := Status.idle
    statusMessage := "Select an audio file to begin."
    lyrics := ""
    error := none
    progress := 0 }

/-- The result of `fileToBase64`: `{ base64, mimeType }`. -/
structure Payload where
  base64 : String
  mimeType : String
deriving DecidableEq, Repr

/-- A JavaScript value caught by `catch (e)`: `some m` when
`e instanceof Error` with `e.message = m`, `none` otherwise (e.g. the
`ProgressEvent` rejected by `reader.onerror`). -/
def JsVal : Type := Option String

/-- The message the `catch` block of `handleSubmit` extracts:
`e instanceof Error ? e.message : "An unexpected error occurred."`. -/
def catchMessage (e : JsVal) : String :=
  match e with
  | some m => m
  | none => "An unexpected error occurred."

/-- Outcome of the remote `ai.models.generateContent` call inside
`transcribeLyrics`: either the raw response text, or a thrown value
(`some m` when it is an `Error` carrying message `m`). -/
inductive RemoteOutcome where
  | ok (text : String)
  | fail (e : Option String)
deriving DecidableEq, Repr

/-- JavaScript `String.prototype.trim` whitespace: WhiteSpace and
LineTerminator code points of the ECMAScript grammar. -/
def isJsWhitespace (c : Char) : Bool :=
  let n := c.toNat
  n == 0x09 || n == 0x0A || n == 0x0B || n == 0x0C || n == 0x0D ||
  n == 0x20 || n == 0xA0 || n == 0x1680 || (0x2000 ≤ n && n ≤ 0x200A) ||
  n == 0x2028 || n == 0x2029 || n == 0x202F || n == 0x205F ||
  n == 0x3000 || n == 0xFEFF

/-- JavaScript `s.trim()`: drop whitespace from both ends. -/
def jsTrim (s : String) : String :=
  String.mk (((s.data.dropWhile isJsWhitespace).reverse.dropWhile
    isJsWhitespace).reverse)

/-- `transcribeLyrics` from the Gemini service file: on success returns
`response.text.trim()`; a thrown `Error` is rewrapped as
`new Error("An error occurred while communicating with the AI: " + message)`,
and any other thrown value as
`new Error("An unknown error occurred during transcription.")`.
Both rewrapped values are `Error` instances, so the result of the failing
case is the message `handleSubmit`'s catch will read. -/
def transcribeLyrics (r : RemoteOutcome) : Except String String :=
  match r with
  | RemoteOutcome.ok t => Except.ok (jsTrim t)
  | RemoteOutcome.fail (some m) =>
      Except.error ("An error occurred while communicating with the AI: " ++ m)
  | RemoteOutcome.fail none =>
      Except.error "An unknown error occurred during transcription."

/-- The environment of one submitted run: what `fileToBase64` resolves or
rejects with, and what the remote call produces. -/
structure RunEnv where
  encodeResult : Except JsVal Payload
  remote : RemoteOutcome

/-- One observable action of a handler: each React state setter is an event,
and the external actions (file encode, pacing delays, the network call) are
recorded so their ordering relative to the state updates is provable. -/
inductive Event where
  | setFile (f : Option FileT)
  | setAudioSrc (a : Option Nat)
  | setStatus (st : Status)
  | setStatusMessage (m : String)
  | setLyrics (l : String)
  | setError (e : Option String)
  | setProgress (n : Nat)
  | encodeCall
  | remoteCall
  | wait (ms : Nat)
deriving DecidableEq, Repr

/-- Effect of one event on the component state; the non-setter events do not
touch the state. -/
def applyEvent (s : St) : Event → St
  | Event.setFile f => { s with file := f }
  | Event.setAudioSrc a => { s with audioSrc := a }
  | Event.setStatus st => { s with status := st }
  | Event.setStatusMessage m => { s with statusMessage := m }
  | Event.setLyrics l => { s with lyrics := l }
  | Event.setError e => { s with error := e }
  | Event.setProgress n => { s with progress := n }
  | Event.encodeCall => s
  | Event.remoteCall => s
  | Event.wait _ => s

/-- The setter calls of `handleReset`, in source order. -/
def resetEvents : List Event :=
  [Event.setFile none,
   Event.setAudioSrc none,
   Event.setLyrics "",
   Event.setError none,
   Event.setStatus Status.idle,
   Event.setStatusMessage "Select an audio file to begin.",
   Event.setProgress 0]

/-- `handleReset` from `App.tsx`. -/
def handleReset (s : St) : St :=
  resetEvents.foldl applyEvent s

/-- The oversize-rejection message of `handleFileChange`. -/
def oversizeMsg : String :=
  "File is too large. Please select a file smaller than 50MB."

/-- The size ceiling `50 * 1024 * 1024` of `handleFileChange`. -/
def maxFileSize : Nat := 50 * 1024 * 1024

/-- Event trace of `handleFileChange`: nothing when the file list is empty;
for an oversize first file, set the error, go to ERROR and drop the file;
otherwise run `handleReset`, adopt the new file, create its object URL and
set IDLE. -/
def fileChangeTrace (files : List FileT) : List Event :=
  match files with
  | [] => []
  | f :: _ =>
    if f.size > maxFileSize then
      [Event.setError (some oversizeMsg),
       Event.setStatus Status.error,
       Event.setFile none]
    else
      resetEvents ++
      [Event.setFile (some f),
       Event.setAudioSrc (some f.id),
       Event.setStatus Status.idle]

/-- `handleFileChange` from `App.tsx`. -/
def handleFileChange (s : St) (files : List FileT) : St :=
  (fileChangeTrace files).foldl applyEvent s

/-- The fallback lyrics shown when the transcribed text is falsy (empty). -/
def noLyricsFallback : String :=
  "The AI could not find any lyrics in this audio file."

/-- The sentinel the prompt instructs the model to return for vocal-free
audio. -/
def noVocalsSentinel : String := "No vocals found in this track."

/-- Event trace of `handleSubmit`: early return when no file is selected;
otherwise the straight-line body, with the `catch` block appended at the
point where `fileToBase64` rejects or `transcribeLyrics` throws. -/
def submitTrace (s : St) (env : RunEnv) : List Event :=
  match s.file with
  | none => []
  | some _ =>
    [Event.setStatus Status.processing,
     Event.setError none,
     Event.setLyrics "",
     Event.setProgress 0,
     Event.setStatusMessage "Reading audio file...",
     Event.encodeCall] ++
    match env.encodeResult with
    | Except.error e =>
        [Event.setError (some (catchMessage e)),
         Event.setStatus Status.error,
         Event.setProgress 0]
    | Except.ok _ =>
      [Event.setProgress 25,
       Event.wait 500,
       Event.setStatusMessage "Analyzing vocals...",
       Event.setProgress 50,
       Event.wait 1500,
       Event.setStatusMessage "Writing lyrics...",
       Event.setProgress 75,
       Event.remoteCall] ++
      match transcribeLyrics env.remote with
      | Except.error msg =>
          [Event.setError (some msg),
           Event.setStatus Status.error,
           Event.setProgress 0]
      | Except.ok t =>
          [Event.setProgress 100,
           Event.wait 500,
           Event.setLyrics (if t = "" then noLyricsFallback else t),
           Event.setStatus Status.success]

/-- `handleSubmit` from `App.tsx`, as the fold of its event trace. -/
def handleSubmit (s : St) (env : RunEnv) : St :=
  (submitTrace s env).foldl applyEvent s

/-- The progress values observed at the `setProgress` update points of a
trace, in order. -/
def progressObservations (evs : List Event) : List Nat :=
  evs.filterMap fun e =>
    match e with
    | Event.setProgress n => some n
    | _ => none

/-- States reachable from the initial component state by any sequence of
resets, file selections and submissions. -/
inductive Reachable : St → Prop where
  | init : Reachable initState
  | reset (s : St) : Reachable s → Reachable (handleReset s)
  | fileChange (s : St) (files : List FileT) :
      Reachable s → Reachable (handleFileChange s files)
  | submit (s : St) (env : RunEnv) :
      Reachable s → Reachable (handleSubmit s env)

/-! Concrete fixtures used by counterexamples and witnesses. -/

/-- A 2 MB file, comfortably under the ceiling. -/
def smallFile : FileT := { size := 2000000, id := 1 }

/-- A 60 MB file, over the 50 MiB ceiling. -/
def bigFile : FileT := { size := 60000000, id := 2 }

/-- A concrete encoded payload. -/
def payloadEx : Payload := { base64 := "QUJD", mimeType := "audio/mpeg" }

/-- Concrete lyrics returned by the remote model in the happy scenario. -/
def lyricsEx : String := "Walking on sunshine\nOh yeah"

/-- A run environment where encoding succeeds and the remote model returns
`lyricsEx`. -/
def goodEnv : RunEnv :=
  { encodeResult := Except.ok payloadEx
    remote := RemoteOutcome.ok lyricsEx }

/-- State after selecting `smallFile` from the initial state. -/
def s1ex : St := handleFileChange initState [smallFile]

/-- State after a successful run on `smallFile`. -/
def s2ex : St := handleSubmit s1ex goodEnv

/-- State after selecting the oversize `bigFile` right after that
successful run. -/
def s3ex : St := handleFileChange s2ex [bigFile]

/-- `s3ex` is reachable: select a small file, run to success, then select an
oversize file. -/
theorem reach_s3ex : Reachable s3ex :=
  Reachable.fileChange s2ex [bigFile]
    (Reachable.submit s1ex goodEnv
      (Reachable.fileChange initState [smallFile] Reachable.init))

/-- Claim C4: calling reset from any state (Idle, Processing, Success or
Error) yields the Idle state with empty lyrics, null error message,
progress 0 and no file selected — indeed, exactly the initial state. -/
theorem C4_reset_yields_idle (s : St) :
    handleReset s = initState ∧
    (handleReset s).status = Status.idle ∧
    (handleReset s).lyrics = "" ∧
    (handleReset s).error = none ∧
    (handleReset s).progress = 0 ∧
    (handleReset s).file = none := by
  refine ⟨rfl, rfl, rfl, rfl, rfl, rfl⟩

/-- Claim C2: selecting a file strictly larger than 52,428,800 bytes
transitions straight to Error with the oversize message and drops the file;
the selection trace performs no encode, no network call and never sets the
Processing status, and a subsequent submit from the resulting state is a
no-op (empty trace: no encoding, no network). -/
theorem C2_oversize_rejected (s : St) (f : FileT) (rest : List FileT)
    (env : RunEnv) (hf : f.size > 52428800) :
    (handleFileChange s (f :: rest)).status = Status.error ∧
    (handleFileChange s (f :: rest)).error = some oversizeMsg ∧
    (handleFileChange s (f :: rest)).file = none ∧
    Event.setStatus Status.processing ∉ fileChangeTrace (f :: rest) ∧
    Event.encodeCall ∉ fileChangeTrace (f :: rest) ∧
    Event.remoteCall ∉ fileChangeTrace (f :: rest) ∧
    submitTrace (handleFileChange s (f :: rest)) env = [] := by
  have hmax : f.size > maxFileSize := hf
  have hfile : (handleFileChange s (f :: rest)).file = none := by
    simp [handleFileChange, fileChangeTrace, hmax, applyEvent]
  refine ⟨?_, ?_, hfile, ?_, ?_, ?_, ?_⟩
  · simp [handleFileChange, fileChangeTrace, hmax, applyEvent]
  · simp [handleFileChange, fileChangeTrace, hmax, applyEvent]
  · simp [fileChangeTrace, hmax]
  · simp [fileChangeTrace, hmax]
  · simp [fileChangeTrace, hmax]
  · simp [submitTrace, hfile]

/-- Witness for C2 at the 60 MB fixture file. -/
theorem C2_oversize_rejected_witness :
    bigFile.size > 52428800 ∧
    ((handleFileChange s2ex [bigFile]).status = Status.error ∧
     (handleFileChange s2ex [bigFile]).error = some oversizeMsg ∧
     (handleFileChange s2ex [bigFile]).file = none ∧
     Event.setStatus Status.processing ∉ fileChangeTrace [bigFile] ∧
     Event.encodeCall ∉ fileChangeTrace [bigFile] ∧
     Event.remoteCall ∉ fileChangeTrace [bigFile] ∧
     submitTrace (handleFileChange s2ex [bigFile]) goodEnv = []) :=
  ⟨by decide, C2_oversize_rejected s2ex bigFile [] goodEnv (by decide)⟩

/-- Claim C5: when the remote transcription call returns exactly the
sentinel "No vocals found in this track.", the run reaches Success and the
lyrics field equals the sentinel unchanged. -/
theorem C5_sentinel_passthrough (s : St) (f : FileT) (p : Payload)
    (env : RunEnv) (hf : s.file = some f)
    (henc : env.encodeResult = Except.ok p)
    (hr : transcribeLyrics env.remote = Except.ok noVocalsSentinel) :
    (handleSubmit s env).status = Status.success ∧
    (handleSubmit s env).lyrics = noVocalsSentinel := by
  have hne : ¬ (noVocalsSentinel = "") := by decide
  constructor <;>
    simp [handleSubmit, submitTrace, hf, henc, hr, applyEvent, hne]

/-- Witness for C5: a run whose remote response is the sentinel. -/
theorem C5_sentinel_passthrough_witness :
    s1ex.file = some smallFile ∧
    ({ goodEnv with
        remote := RemoteOutcome.ok noVocalsSentinel }.encodeResult =
      Except.ok payloadEx) ∧
    transcribeLyrics
        { goodEnv with remote := RemoteOutcome.ok noVocalsSentinel }.remote =
      Except.ok noVocalsSentinel ∧
    ((handleSubmit s1ex
        { goodEnv with
            remote := RemoteOutcome.ok noVocalsSentinel }).status =
        Status.success ∧
      (handleSubmit s1ex
        { goodEnv with
            remote := RemoteOutcome.ok noVocalsSentinel }).lyrics =
        noVocalsSentinel) :=
  ⟨by decide, rfl, by decide,
    C5_sentinel_passthrough s1ex smallFile payloadEx
      { goodEnv with remote := RemoteOutcome.ok noVocalsSentinel }
      (by decide) rfl (by decide)⟩

/-- Claim C6: when the remote transcription call returns the empty string,
the run reaches Success and the lyrics field equals the locally defined
fallback message, never the empty string. -/
theorem C6_empty_fallback (s : St) (f : FileT) (p : Payload)
    (env : RunEnv) (hf : s.file = some f)
    (henc : env.encodeResult = Except.ok p)
    (hr : env.remote = RemoteOutcome.ok "") :
    (handleSubmit s env).status = Status.success ∧
    (handleSubmit s env).lyrics = noLyricsFallback ∧
    (handleSubmit s env).lyrics ≠ "" := by
  have ht : transcribeLyrics env.remote = Except.ok "" := by
    rw [hr]; decide
  have hfb : ¬ (noLyricsFallback = "") := by decide
  refine ⟨?_, ?_, ?_⟩ <;>
    simp [handleSubmit, submitTrace, hf, henc, ht, applyEvent, hfb]

/-- Witness for C6: a run whose remote response is empty. -/
theorem C6_empty_fallback_witness :
    s1ex.file = some smallFile ∧
    ({ goodEnv with remote := RemoteOutcome.ok "" }.encodeResult =
      Except.ok payloadEx) ∧
    ({ goodEnv with remote := RemoteOutcome.ok "" }.remote =
      RemoteOutcome.ok "") ∧
    ((handleSubmit s1ex { goodEnv with remote := RemoteOutcome.ok "" }).status =
        Status.success ∧
      (handleSubmit s1ex { goodEnv with remote := RemoteOutcome.ok "" }).lyrics =
        noLyricsFallback ∧
      (handleSubmit s1ex { goodEnv with remote := RemoteOutcome.ok "" }).lyrics ≠
        "") :=
  ⟨by decide, rfl, rfl,
    C6_empty_fallback s1ex smallFile payloadEx
      { goodEnv with remote := RemoteOutcome.ok "" } (by decide) rfl rfl⟩

/-- Claim C7: when the remote call fails with a diagnosable message `m`,
the run ends in Error with an error message equal to the AI-communication
wrapper applied to `m` — so it contains `m` verbatim after the fixed AI
head text — and when the failure carries no diagnosable message, the error
message is the fixed unknown-transcription-error message. -/
theorem C7_remote_failure_message (s : St) (f : FileT) (p : Payload)
    (env : RunEnv) (eo : Option String) (hf : s.file = some f)
    (henc : env.encodeResult = Except.ok p)
    (hr : env.remote = RemoteOutcome.fail eo) :
    (handleSubmit s env).status = Status.error ∧
    (∀ m, eo = some m →
      (handleSubmit s env).error =
        some ("An error occurred while communicating with the AI: " ++ m)) ∧
    (eo = none →
      (handleSubmit s env).error =
        some "An unknown error occurred during transcription.") := by
  match eo with
  | some m =>
    have ht : transcribeLyrics env.remote =
        Except.error ("An error occurred while communicating with the AI: " ++ m) := by
      rw [hr]; rfl
    refine ⟨?_, ?_, ?_⟩
    · simp [handleSubmit, submitTrace, hf, henc, ht, applyEvent]
    · intro m' hm'
      cases hm'
      simp [handleSubmit, submitTrace, hf, henc, ht, applyEvent]
    · intro h
      cases h
  | none =>
    have ht : transcribeLyrics env.remote =
        Except.error "An unknown error occurred during transcription." := by
      rw [hr]; rfl
    refine ⟨?_, ?_, ?_⟩
    · simp [handleSubmit, submitTrace, hf, henc, ht, applyEvent]
    · intro m' hm'
      cases hm'
    · intro _
      simp [handleSubmit, submitTrace, hf, henc, ht, applyEvent]

/-- Witness for C7: the remote call throws an Error with message
"quota exceeded". -/
theorem C7_remote_failure_message_witness :
    s1ex.file = some smallFile ∧
    ({ goodEnv with
        remote := RemoteOutcome.fail (some "quota exceeded") }.encodeResult =
      Except.ok payloadEx) ∧
    ({ goodEnv with
        remote := RemoteOutcome.fail (some "quota exceeded") }.remote =
      RemoteOutcome.fail (some "quota exceeded")) ∧
    ((handleSubmit s1ex
        { goodEnv with
            remote := RemoteOutcome.fail (some "quota exceeded") }).status =
        Status.error ∧
      (∀ m, (some "quota exceeded" : Option String) = some m →
        (handleSubmit s1ex
            { goodEnv with
                remote := RemoteOutcome.fail (some "quota exceeded") }).error =
          some ("An error occurred while communicating with the AI: " ++ m)) ∧
      ((some "quota exceeded" : Option String) = none →
        (handleSubmit s1ex
            { goodEnv with
                remote := RemoteOutcome.fail (some "quota exceeded") }).error =
          some "An unknown error occurred during transcription.")) :=
  ⟨by decide, rfl, rfl,
    C7_remote_failure_message s1ex smallFile payloadEx
      { goodEnv with remote := RemoteOutcome.fail (some "quota exceeded") }
      (some "quota exceeded") (by decide) rfl rfl⟩

/-- Claim C9: any failure during encoding or during the remote
transcription call takes the machine directly to Error with progress reset
to 0 and the error message set to what the catch block extracts from the
failure: the rejection's own message when it is an Error carrying one
(always the case for transcription failures), the fixed unexpected-error
text otherwise. -/
theorem C9_failure_to_error (s : St) (f : FileT) (env : RunEnv)
    (hf : s.file = some f) :
    (∀ e, env.encodeResult = Except.error e →
      (handleSubmit s env).status = Status.error ∧
      (handleSubmit s env).progress = 0 ∧
      (handleSubmit s env).error = some (catchMessage e)) ∧
    (∀ p msg, env.encodeResult = Except.ok p →
      transcribeLyrics env.remote = Except.error msg →
      (handleSubmit s env).status = Status.error ∧
      (handleSubmit s env).progress = 0 ∧
      (handleSubmit s env).error = some msg) := by
  constructor
  · intro e henc
    refine ⟨?_, ?_, ?_⟩ <;>
      simp [handleSubmit, submitTrace, hf, henc, applyEvent]
  · intro p msg henc ht
    refine ⟨?_, ?_, ?_⟩ <;>
      simp [handleSubmit, submitTrace, hf, henc, ht, applyEvent]

/-- Witness for C9: an encode failure whose rejection is an Error with
message "read failed". -/
theorem C9_failure_to_error_witness :
    s1ex.file = some smallFile ∧
    ({ goodEnv with
        encodeResult := Except.error (some "read failed") }.encodeResult =
      Except.error (some ("read failed") : JsVal)) ∧
    ((handleSubmit s1ex
        { goodEnv with
            encodeResult := Except.error (some "read failed") }).status =
        Status.error ∧
      (handleSubmit s1ex
        { goodEnv with
            encodeResult := Except.error (some "read failed") }).progress = 0 ∧
      (handleSubmit s1ex
        { goodEnv with
            encodeResult := Except.error (some "read failed") }).error =
        some (catchMessage (some "read failed"))) :=
  ⟨by decide, rfl,
    (C9_failure_to_error s1ex smallFile
        { goodEnv with encodeResult := Except.error (some "read failed") }
        (by decide)).1 (some "read failed") rfl⟩

/-- Claim C3: for every run started by submit with a file selected, the
progress values observed at the setProgress update points form a
non-decreasing sequence ending at 100 when the run reaches Success, and the
last observed value is the reset to 0 when the run reaches Error. -/
theorem C3_progress_monotone (s : St) (f : FileT) (env : RunEnv)
    (hf : s.file = some f) :
    ((handleSubmit s env).status = Status.success →
      List.Chain' (· ≤ ·) (progressObservations (submitTrace s env)) ∧
      (progressObservations (submitTrace s env)).getLast? = some 100) ∧
    ((handleSubmit s env).status = Status.error →
      (progressObservations (submitTrace s env)).getLast? = some 0) := by
  rcases henc : env.encodeResult with e | p
  · constructor
    · intro hstat
      exfalso
      simp [handleSubmit, submitTrace, hf, henc, applyEvent] at hstat
    · intro _
      simp [progressObservations, submitTrace, hf, henc]
  · rcases ht : transcribeLyrics env.remote with msg | t
    · constructor
      · intro hstat
        exfalso
        simp [handleSubmit, submitTrace, hf, henc, ht, applyEvent] at hstat
      · intro _
        simp [progressObservations, submitTrace, hf, henc, ht]
    · constructor
      · intro _
        constructor
        · simp [progressObservations, submitTrace, hf, henc, ht]
        · simp [progressObservations, submitTrace, hf, henc, ht]
      · intro hstat
        exfalso
        simp [handleSubmit, submitTrace, hf, henc, ht, applyEvent] at hstat

/-- Witness for C3: the happy-path run on the small file. -/
theorem C3_progress_monotone_witness :
    s1ex.file = some smallFile ∧
    (((handleSubmit s1ex goodEnv).status = Status.success →
      List.Chain' (· ≤ ·) (progressObservations (submitTrace s1ex goodEnv)) ∧
      (progressObservations (submitTrace s1ex goodEnv)).getLast? = some 100) ∧
    ((handleSubmit s1ex goodEnv).status = Status.error →
      (progressObservations (submitTrace s1ex goodEnv)).getLast? = some 0)) :=
  ⟨by decide, C3_progress_monotone s1ex smallFile goodEnv (by decide)⟩

/-- Invariant actually maintained by the pipeline: in every reachable state,
either the lyrics are empty, or no error is set, or the error is the
oversize-selection message (the one error that does not clear lyrics). -/
theorem reachable_lyrics_error (s : St) (hs : Reachable s) :
    s.lyrics = "" ∨ s.error = none ∨ s.error = some oversizeMsg := by
  induction hs with
  | init => exact Or.inl rfl
  | reset s' _ _ => exact Or.inl rfl
  | fileChange s' files _ ih =>
    cases files with
    | nil => exact ih
    | cons f rest =>
      by_cases hmax : f.size > maxFileSize
      · refine Or.inr (Or.inr ?_)
        simp [handleFileChange, fileChangeTrace, hmax, applyEvent]
      · refine Or.inl ?_
        simp [handleFileChange, fileChangeTrace, hmax, applyEvent, resetEvents]
  | submit s' env _ ih =>
    rcases hfile : s'.file with _ | f
    · have hid : handleSubmit s' env = s' := by
        simp [handleSubmit, submitTrace, hfile]
      rw [hid]
      exact ih
    · rcases henc : env.encodeResult with e | p
      · refine Or.inl ?_
        simp [handleSubmit, submitTrace, hfile, henc, applyEvent]
      · rcases ht : transcribeLyrics env.remote with msg | t
        · refine Or.inl ?_
          simp [handleSubmit, submitTrace, hfile, henc, ht, applyEvent]
        · refine Or.inr (Or.inl ?_)
          simp [handleSubmit, submitTrace, hfile, henc, ht, applyEvent]

/-- Claim C1 as stated: in every reachable state, a non-empty error message
implies empty lyrics. -/
def lyricsErrorExclusive : Prop :=
  ∀ s, Reachable s → ∀ m, s.error = some m → m ≠ "" → s.lyrics = ""

/-- Claim C1 is false on the code: after a successful run, selecting an
oversize file sets the oversize error and drops the file but does not clear
the previous lyrics, so the reachable state `s3ex` carries both a non-empty
error message and non-empty lyrics. -/
theorem C1_counterexample : ¬ lyricsErrorExclusive := by
  intro h
  have h3 := h s3ex reach_s3ex oversizeMsg (by decide) (by decide)
  exact absurd h3 (by decide)

/-- Claim C1 amended: in every reachable state with a non-empty error
message and non-empty lyrics, the error is the oversize-selection message —
every other error-producing path (a failed run) first clears the lyrics, so
outside oversize selection a set error message implies empty lyrics. -/
theorem C1_amended_exclusive (s : St) (hs : Reachable s) (m : String)
    (he : s.error = some m) (hl : s.lyrics ≠ "") : m = oversizeMsg := by
  rcases reachable_lyrics_error s hs with h | h | h
  · exact absurd h hl
  · rw [he] at h
    exact Option.noConfusion h
  · rw [he] at h
    exact Option.some.inj h

/-- Witness for the amended C1 at the oversize-after-success state. -/
theorem C1_amended_exclusive_witness :
    Reachable s3ex ∧ s3ex.error = some oversizeMsg ∧ s3ex.lyrics ≠ "" ∧
      oversizeMsg = oversizeMsg :=
  ⟨reach_s3ex, by decide, by decide,
    C1_amended_exclusive s3ex reach_s3ex oversizeMsg (by decide) (by decide)⟩

/-- Index of the first occurrence of an event in a trace. -/
def eventIdx (evs : List Event) (e : Event) : Nat :=
  evs.findIdx (fun x => x == e)

/-- Claim C8 as stated, in its false part: in every successful run the
"Analyzing vocals" pacing delay comes before the progress-50 update. -/
def analysisDelayThenFifty : Prop :=
  ∀ (s : St) (f : FileT) (p : Payload) (t : String) (env : RunEnv),
    s.file = some f → env.encodeResult = Except.ok p →
    env.remote = RemoteOutcome.ok t →
    eventIdx (submitTrace s env) (Event.wait 1500) <
      eventIdx (submitTrace s env) (Event.setProgress 50)

/-- Claim C8 is false as stated on the happy-path run: the code sets
progress to 50 immediately after the "Analyzing vocals..." message and only
then awaits the 1500 ms pacing delay, so in the concrete successful trace
the progress-50 update precedes the delay, not the other way around. -/
theorem C8_counterexample : ¬ analysisDelayThenFifty := by
  intro h
  have h50 := h s1ex smallFile payloadEx lyricsEx goodEnv (by decide) rfl rfl
  exact absurd h50 (by decide)

/-- Claim C8 amended: within one Processing run that encodes successfully
and whose remote call returns text, the trace is exactly: status Processing
with cleared error/lyrics and progress 0; stage "Reading audio file...",
the encode, progress 25, a 500 ms delay; stage "Analyzing vocals...",
progress 50 set before the 1500 ms pacing delay; stage "Writing lyrics...",
progress 75, the remote call; then progress 100, a 500 ms delay, the lyrics
update (trimmed text or the fallback when it trims to empty), and status
Success — each update in this fixed order before the next action. -/
theorem C8_amended_stage_order (s : St) (f : FileT) (p : Payload)
    (t : String) (env : RunEnv) (hf : s.file = some f)
    (henc : env.encodeResult = Except.ok p)
    (hr : env.remote = RemoteOutcome.ok t) :
    submitTrace s env =
      [Event.setStatus Status.processing,
       Event.setError none,
       Event.setLyrics "",
       Event.setProgress 0,
       Event.setStatusMessage "Reading audio file...",
       Event.encodeCall,
       Event.setProgress 25,
       Event.wait 500,
       Event.setStatusMessage "Analyzing vocals...",
       Event.setProgress 50,
       Event.wait 1500,
       Event.setStatusMessage "Writing lyrics...",
       Event.setProgress 75,
       Event.remoteCall,
       Event.setProgress 100,
       Event.wait 500,
       Event.setLyrics (if jsTrim t = "" then noLyricsFallback else jsTrim t),
       Event.setStatus Status.success] := by
  simp [submitTrace, hf, henc, hr, transcribeLyrics]

/-- Witness for the amended C8 on the happy-path run. -/
theorem C8_amended_stage_order_witness :
    s1ex.file = some smallFile ∧
    goodEnv.encodeResult = Except.ok payloadEx ∧
    goodEnv.remote = RemoteOutcome.ok lyricsEx ∧
    submitTrace s1ex goodEnv =
      [Event.setStatus Status.processing,
       Event.setError none,
       Event.setLyrics "",
       Event.setProgress 0,
       Event.setStatusMessage "Reading audio file...",
       Event.encodeCall,
       Event.setProgress 25,
       Event.wait 500,
       Event.setStatusMessage "Analyzing vocals...",
       Event.setProgress 50,
       Event.wait 1500,
       Event.setStatusMessage "Writing lyrics...",
       Event.setProgress 75,
       Event.remoteCall,
       Event.setProgress 100,
       Event.wait 500,
       Event.setLyrics
         (if jsTrim lyricsEx = "" then noLyricsFallback else jsTrim lyricsEx),
       Event.setStatus Status.success] :=
  ⟨by decide, rfl, rfl,
    C8_amended_stage_order s1ex smallFile payloadEx lyricsEx goodEnv
      (by decide) rfl rfl⟩

/-- Claim C10: when the raw remote response consists only of whitespace
characters, the trimmed result is empty and the run reaches Success with
the lyrics equal to the fallback no-lyrics message, exactly as for an empty
response. -/
theorem C10_whitespace_fallback (s : St) (f : FileT) (p : Payload)
    (t : String) (env : RunEnv) (hf : s.file = some f)
    (henc : env.encodeResult = Except.ok p)
    (hr : env.remote = RemoteOutcome.ok t)
    (hw : ∀ c ∈ t.data, isJsWhitespace c) :
    jsTrim t = "" ∧
    (handleSubmit s env).status = Status.success ∧
    (handleSubmit s env).lyrics = noLyricsFallback := by
  have h1 : t.data.dropWhile isJsWhitespace = [] :=
    List.dropWhile_eq_nil_iff.mpr hw
  have htrim : jsTrim t = "" := by
    unfold jsTrim
    rw [h1]
    rfl
  have ht : transcribeLyrics env.remote = Except.ok "" := by
    rw [hr]
    show Except.ok (jsTrim t) = Except.ok ""
    rw [htrim]
  refine ⟨htrim, ?_, ?_⟩ <;>
    simp [handleSubmit, submitTrace, hf, henc, ht, applyEvent]

/-- Witness for C10: a response of blanks, a tab and a newline. -/
theorem C10_whitespace_fallback_witness :
    s1ex.file = some smallFile ∧
    ({ goodEnv with remote := RemoteOutcome.ok "  \t\n " }.encodeResult =
      Except.ok payloadEx) ∧
    ({ goodEnv with remote := RemoteOutcome.ok "  \t\n " }.remote =
      RemoteOutcome.ok "  \t\n ") ∧
    (∀ c ∈ ("  \t\n " : String).data, isJsWhitespace c) ∧
    (jsTrim "  \t\n " = "" ∧
      (handleSubmit s1ex
        { goodEnv with remote := RemoteOutcome.ok "  \t\n " }).status =
        Status.success ∧
      (handleSubmit s1ex
        { goodEnv with remote := RemoteOutcome.ok "  \t\n " }).lyrics =
        noLyricsFallback) :=
  ⟨by decide, rfl, rfl, by decide,
    C10_whitespace_fallback s1ex smallFile payloadEx "  \t\n "
      { goodEnv with remote := RemoteOutcome.ok "  \t\n " }
      (by decide) rfl rfl (by decide)⟩

end Vox2Words
